import Mathlib

/-!
Verification of the auto-fix control loop of the ADF diagnosis app.

The embedding translates the code of `src/app.py` (the Error Diagnosis
page's auto-fix loop, `MAX_FIX_ATTEMPTS = 3`), `src/azure_tools.py`
(`get_pipeline_definition`, `update_pipeline`, `create_pipeline_run`,
`get_pipeline_run`) and `src/agent.py` (`get_error_analysis`,
`get_pipeline_fix_json`) into Lean.  External effects (the Azure SDK and
the completion service) are modelled as per-attempt environments of
responses; the loop itself, its exception handling and its event order
follow the Python source line by line.
-/

namespace ADFAutoFix

/-- One activity of a pipeline definition: a stable name plus opaque
contents (the embedding does not need the internal structure of an
activity, only its name identity). -/
structure Activity where
  name : String
  content : String
deriving DecidableEq, Repr

/-- The declarative pipeline definition as returned by
`get_pipeline_definition` (`pipeline.as_dict()` in `azure_tools.py`):
name, activities, parameters, variables, annotations. -/
structure PipelineDefinition where
  name : String
  activities : List Activity
  parameters : List (String × String)
  «variables» : List (String × String)
  annotations : List String
deriving DecidableEq, Repr

/-- The JSON object obtained from `json.loads(ai_fix_str)` in `app.py`
line 206, in the dict shape the fix proposer's contract emits: an
optional `manual_intervention_required` key, the four definition keys
read by `update_pipeline` via `.get` (each optional, `None` when the
key is absent), an optional top-level `name`, and any remaining
top-level keys (which no consumer reads). -/
structure FixJson where
  manual_intervention_required : Option String
  name : Option String
  activities : Option (List Activity)
  parameters : Option (List (String × String))
  «variables» : Option (List (String × String))
  annotations : Option (List String)
  otherKeys : List String
deriving DecidableEq, Repr

/-- The `PipelineResource(...)` constructed in `update_pipeline`
(`azure_tools.py` lines 159-164): exactly the four keyword arguments,
each fetched with `.get` from the incoming definition dict. -/
structure PipelineResource where
  activities : Option (List Activity)
  parameters : Option (List (String × String))
  «variables» : Option (List (String × String))
  annotations : Option (List String)
deriving DecidableEq, Repr

/-- What `adf_client.pipelines.create_or_update` is asked to write: the
pipeline name passed positionally by the caller and the constructed
resource (`azure_tools.py` lines 165-170). -/
structure WrittenPipeline where
  pipeline_name : String
  resource : PipelineResource
deriving DecidableEq, Repr

/-- `update_pipeline` of `azure_tools.py` (lines 152-173).  `backend` is
the behaviour of the `create_or_update` call: `.ok ()` when the SDK call
succeeds, `.error e` when it raises (the function then returns the
`{"error": f"Error updating pipeline: {e}"}` dict).  On success the
result records what was written: the caller-supplied `pipeline_name`
and a resource built from only the four `.get` fields of
`pipeline_definition`. -/
def update_pipeline (pipeline_name : String) (pipeline_definition : FixJson)
    (backend : Except String Unit) : Except String WrittenPipeline :=
  match backend with
  | .ok _ =>
      .ok { pipeline_name := pipeline_name
            resource :=
              { activities := pipeline_definition.activities
                parameters := pipeline_definition.parameters
                «variables» := pipeline_definition.«variables»
                annotations := pipeline_definition.annotations } }
  | .error e => .error ("Error updating pipeline: " ++ e)

/-- `get_pipeline_definition` of `azure_tools.py` (lines 134-149):
returns the definition, or the `{"error": ...}` dict when the SDK get
raises (`backend` carries the raised message). -/
def get_pipeline_definition (backend : Except String PipelineDefinition) :
    Except String PipelineDefinition :=
  match backend with
  | .ok p => .ok p
  | .error e => .error ("Error getting pipeline definition: " ++ e)

/-- `create_pipeline_run` of `azure_tools.py` (lines 177-189): returns
`{"runId": run_response.run_id}` or the `{"error": ...}` dict when the
SDK call raises. -/
def create_pipeline_run (backend : Except String String) : Except String String :=
  match backend with
  | .ok runId => .ok runId
  | .error e => .error ("Error creating pipeline run: " ++ e)

/-- One reply of `get_pipeline_run.invoke` (`azure_tools.py` lines
193-209): either the `{runId, status, message}` dict (constructor `record`) (the `message` key
is always present, its value possibly `None`), or the `{"error": ...}`
dict produced when the SDK get raises. -/
inductive PollReply where
  | record (runId : String) (status : String) (message : Option String)
  | errorDict (msg : String)
deriving DecidableEq, Repr

/-- The Python value `run_status.get('message', ...)` when the reply is
a record: the key is always present in the dict built by
`get_pipeline_run`, so the `.get` default is never used and a `None`
value is returned as-is; its only later uses are string interpolation,
where Python renders it "None". -/
def pyOptionStr : Option String → String
  | some s => s
  | none => "None"

/-- How the monitoring `while True:` loop of `app.py` (lines 232-244)
ends one entry: the new run reached `Succeeded`; it reached `Failed` or
`Cancelled` (carrying the extracted message that becomes the new
`current_error`); or a poll returned the error dict, on which
`run_status['status']` raises an uncaught `KeyError`. -/
inductive TerminalObs where
  | succeeded
  | failedOrCancelled (message : String)
  | gatewayKeyError (errText : String)
deriving DecidableEq, Repr

/-- The monitoring loop of `app.py` lines 232-244, fuel-indexed because
the source loop has no internal cap (`none` = the fuel ran out while
the source loop would still be polling).  Each iteration sleeps 10
time units (`time.sleep(10)`) and then reads the run once via
`get_pipeline_run`; `poll j` is the reply to the `j`-th read.  The
result carries the observation, the total number of polls made, and
the elapsed sleep time. -/
def monitorRun (poll : Nat → PollReply) : Nat → Nat → Nat → Option (TerminalObs × Nat × Nat)
  | 0, _i, _t => none
  | fuel + 1, i, t =>
    let t1 := t + 10
    match poll i with
    | .errorDict m => some (.gatewayKeyError m, i + 1, t1)
    | .record _ st msg =>
      if st = "Succeeded" then some (.succeeded, i + 1, t1)
      else if st = "Failed" ∨ st = "Cancelled" then
        some (.failedOrCancelled (pyOptionStr msg), i + 1, t1)
      else monitorRun poll fuel (i + 1) t1

/-- The exception classes of the `except (ValueError, RuntimeError,
json.JSONDecodeError)` clause at `app.py` line 246, plus `otherError`
for any exception outside that tuple (which the loop does not catch). -/
inductive ExcKind where
  | valueError
  | runtimeError
  | jsonDecodeError
  | otherError
deriving DecidableEq, Repr

/-- Whether the `except` clause at `app.py` line 246 catches an
exception of this class. -/
def isCaughtExc : ExcKind → Bool
  | .valueError => true
  | .runtimeError => true
  | .jsonDecodeError => true
  | .otherError => false

/-- The external responses one attempt of the loop can consume, in the
order the source consumes them: the SDK behaviour behind
`get_pipeline_definition`, the parse outcome of the proposer text
(`json.loads`, `.error` = `json.JSONDecodeError`), the SDK behaviour
behind `update_pipeline` and `create_pipeline_run`, the
`get_pipeline_run` reply to each status poll, and the outcome of the
`llm.invoke` call inside `get_error_analysis` (`agent.py` lines
414-446, which has no exception handling of its own: `.error (k, m)`
means the call raised an exception of class `k` with message `m`). -/
structure AttemptEnv where
  fetchBackend : Except String PipelineDefinition
  parsed : Except String FixJson
  updateBackend : Except String Unit
  triggerBackend : Except String String
  poll : Nat → PollReply
  analysis : Except (ExcKind × String) String

/-- The per-session constants of the loop: `pipeline_name` and
`activity['activityName']` from `st.session_state.fix_in_progress`. -/
structure SessionCfg where
  pipeline_name : String
  activityName : String
deriving DecidableEq, Repr

/-- The observable calls one repair session makes, each tagged with the
attempt (0-based, as in `for attempt in range(MAX_FIX_ATTEMPTS)`):
fetching the definition, invoking the fix proposer (recording the
definition, the `current_error` and the activity name it was given),
invoking `update_pipeline` with the parsed fix, invoking
`create_pipeline_run`, the `j`-th status poll of the monitoring loop,
and invoking `get_error_analysis` with the original `current_error`. -/
inductive Event where
  | fetch (att : Nat)
  | propose (att : Nat) (defn : PipelineDefinition) (err : String) (activity : String)
  | updateCall (att : Nat) (fix : FixJson)
  | triggerCall (att : Nat)
  | poll (att : Nat) (j : Nat)
  | analyze (att : Nat) (err : String)
deriving DecidableEq, Repr

/-- The poll events of one monitor entry that made `n` status reads. -/
def pollEvents (att n : Nat) : List Event :=
  (List.range n).map (fun j => Event.poll att j)

/-- How one iteration of the `for attempt in range(MAX_FIX_ATTEMPTS)`
body ends: the success branch completed (`st.success`, then `break`);
the manual-intervention branch ran (`st.warning`, then `break`); an
exception of a caught class was raised (carrying its message and the
value `current_error` has after the attempt); an uncaught exception
propagated; or the monitor fuel ran out. -/
inductive AttemptOutcome where
  | ok (explanation : String)
  | manual (explanation : String)
  | caught (excMsg : String) (newError : String)
  | uncaught
  | noTerminal
deriving DecidableEq, Repr

/-- One iteration of the auto-fix loop body (`app.py` lines 196-244):
fetch the definition (raising `ValueError` on an error dict), call the
proposer and `json.loads` its text, short-circuit on the
`manual_intervention_required` key, apply via `update_pipeline`
(raising `ValueError` on an error dict), retrigger via
`create_pipeline_run` (likewise), then monitor: on `Succeeded` call
`get_error_analysis(str(current_error))` and finish; on
`Failed`/`Cancelled` set `current_error` to the run's message and
raise `RuntimeError`; on a poll error dict, `run_status['status']`
raises an uncaught `KeyError`. -/
def attemptStep (cfg : SessionCfg) (env : AttemptEnv) (att : Nat) (cur : String)
    (pollFuel : Nat) : AttemptOutcome × List Event :=
  match get_pipeline_definition env.fetchBackend with
  | .error m => (.caught ("Failed to get pipeline definition: " ++ m) cur, [.fetch att])
  | .ok pdef =>
    match env.parsed with
    | .error m =>
        (.caught m cur, [.fetch att, .propose att pdef cur cfg.activityName])
    | .ok fj =>
      match fj.manual_intervention_required with
      | some expl =>
          (.manual expl, [.fetch att, .propose att pdef cur cfg.activityName])
      | none =>
        match update_pipeline cfg.pipeline_name fj env.updateBackend with
        | .error m =>
            (.caught ("Failed to update pipeline: " ++ m) cur,
             [.fetch att, .propose att pdef cur cfg.activityName, .updateCall att fj])
        | .ok _written =>
          match create_pipeline_run env.triggerBackend with
          | .error m =>
              (.caught ("Failed to retrigger pipeline: " ++ m) cur,
               [.fetch att, .propose att pdef cur cfg.activityName, .updateCall att fj,
                .triggerCall att])
          | .ok _runId =>
            let base : List Event :=
              [.fetch att, .propose att pdef cur cfg.activityName, .updateCall att fj,
               .triggerCall att]
            match monitorRun env.poll pollFuel 0 0 with
            | none => (.noTerminal, base ++ pollEvents att pollFuel)
            | some (.succeeded, n, _t) =>
              match env.analysis with
              | .ok text =>
                  (.ok text, base ++ pollEvents att n ++ [.analyze att cur])
              | .error (k, m) =>
                  ((if isCaughtExc k then .caught m cur else .uncaught),
                   base ++ pollEvents att n ++ [.analyze att cur])
            | some (.failedOrCancelled msg, n, _t) =>
                (.caught ("New run failed. Error: " ++ msg) msg, base ++ pollEvents att n)
            | some (.gatewayKeyError _m, n, _t) => (.uncaught, base ++ pollEvents att n)

/-- `MAX_FIX_ATTEMPTS = 3` (`app.py` line 186). -/
def MAX_FIX_ATTEMPTS : Nat := 3

/-- How one repair session ends: the four ways the loop can stop plus
two embedding markers: `crashed` for an uncaught exception propagating
out of the loop, `outOfFuel` when the monitor fuel ran out (the source
would still be polling), and `loopEnded` for the `for` loop exhausting
its range without `break` (unreachable from `run_autofix`, whose body
always breaks or continues).  `exhausted` carries the last attempt's
status label text (`f"Attempt .. failed: {e}"` records `e`) and the
final value of `current_error`. -/
inductive SessionResult where
  | succeeded (explanation : String)
  | manualStop (explanation : String)
  | exhausted (lastExcMsg : String) (lastError : String)
  | crashed
  | outOfFuel
  | loopEnded
deriving DecidableEq, Repr

/-- The `for attempt in range(MAX_FIX_ATTEMPTS)` loop of `app.py` lines
195-253 over the remaining attempt indices.  A caught exception
continues to the next attempt when `attempt < MAX_FIX_ATTEMPTS - 1`
(after a fixed 2-second pause) and otherwise shows the exhaustion
error; every other outcome breaks the loop. -/
def autofixOver (cfg : SessionCfg) (envs : Nat → AttemptEnv) (pollFuel : Nat) :
    List Nat → String → SessionResult × List Event
  | [], _cur => (.loopEnded, [])
  | att :: rest, cur =>
    let step := attemptStep cfg (envs att) att cur pollFuel
    match step.1 with
    | .ok e => (.succeeded e, step.2)
    | .manual e => (.manualStop e, step.2)
    | .noTerminal => (.outOfFuel, step.2)
    | .uncaught => (.crashed, step.2)
    | .caught m newErr =>
      if att < MAX_FIX_ATTEMPTS - 1 then
        let next := autofixOver cfg envs pollFuel rest newErr
        (next.1, step.2 ++ next.2)
      else
        (.exhausted m newErr, step.2)

/-- One full repair session: the auto-fix loop started with the failed
activity's error as `current_error` (`app.py` line 193). -/
def run_autofix (cfg : SessionCfg) (envs : Nat → AttemptEnv) (pollFuel : Nat)
    (initialError : String) : SessionResult × List Event :=
  autofixOver cfg envs pollFuel (List.range MAX_FIX_ATTEMPTS) initialError

/-- Whether a run status string is terminal for the monitoring loop:
the two branch conditions of `app.py` lines 236 and 242. -/
def terminalStatus (st : String) : Bool :=
  st == "Succeeded" || st == "Failed" || st == "Cancelled"

/-- A poll reply that is a status record with a non-terminal status
(e.g. `Queued` or `InProgress`): the monitoring loop keeps polling. -/
def nonTerminalReply : PollReply → Bool
  | .record _ st _ => !(terminalStatus st)
  | .errorDict _ => false

/-- A poll reply that is a status record (not the error dict). -/
def recordReply : PollReply → Bool
  | .record _ _ _ => true
  | .errorDict _ => false

/-- A poll reply that is a status record with a terminal status. -/
def terminalReply : PollReply → Bool
  | .record _ st _ => terminalStatus st
  | .errorDict _ => false

/-- Count the events of a trace satisfying a predicate. -/
def countEvents (p : Event → Bool) (evs : List Event) : Nat :=
  evs.countP p

/-- The event is a `get_pipeline_definition` call (one per attempt
started). -/
def isFetchEv : Event → Bool
  | .fetch _ => true
  | _ => false

/-- The event is a fix-proposer invocation. -/
def isProposeEv : Event → Bool
  | .propose _ _ _ _ => true
  | _ => false

/-- The event is an `update_pipeline` call. -/
def isUpdateEv : Event → Bool
  | .updateCall _ _ => true
  | _ => false

/-- The event is a `create_pipeline_run` call. -/
def isTriggerEv : Event → Bool
  | .triggerCall _ => true
  | _ => false

/-- The event is the first status poll of one monitor entry: counting
these counts how many times the session entered the monitoring loop. -/
def isMonitorEnterEv : Event → Bool
  | .poll _ 0 => true
  | _ => false

/-- The event is an `update_pipeline` call made on attempt `k`. -/
def isUpdateAt (k : Nat) : Event → Bool
  | .updateCall a _ => a == k
  | _ => false

/-- The event is a `create_pipeline_run` call made on attempt `k`. -/
def isTriggerAt (k : Nat) : Event → Bool
  | .triggerCall a => a == k
  | _ => false

/-- The attempt index an event belongs to. -/
def attOf : Event → Nat
  | .fetch a => a
  | .propose a _ _ _ => a
  | .updateCall a _ => a
  | .triggerCall a => a
  | .poll a _ => a
  | .analyze a _ => a

/-- The `current_error` arguments of the proposer invocations of a
trace, in order. -/
def proposeErrors (evs : List Event) : List String :=
  evs.filterMap (fun e => match e with
    | .propose _ _ err _ => some err
    | _ => none)

/-- An attempt environment on which one loop iteration runs the full
fetch/propose/apply/trigger/monitor cycle and the retriggered run ends
`Failed` or `Cancelled` with message `e`: the definition fetch
succeeds, the proposer text parses to a patch without the
manual-intervention key, the update and the trigger succeed, and after
some number of non-terminal polls (within the monitor fuel) a poll
reports the terminal failure. -/
def failsWith (env : AttemptEnv) (e : String) (pollFuel : Nat) : Prop :=
  (∃ d, env.fetchBackend = .ok d) ∧
  (∃ fj, env.parsed = .ok fj ∧ fj.manual_intervention_required = none) ∧
  env.updateBackend = .ok () ∧
  (∃ r, env.triggerBackend = .ok r) ∧
  ∃ n, n < pollFuel ∧ (∀ j, j < n → nonTerminalReply (env.poll j) = true) ∧
    ∃ id st, (st = "Failed" ∨ st = "Cancelled") ∧ env.poll n = .record id st (some e)

/-- An attempt environment on which one loop iteration runs the full
cycle, the retriggered run ends `Succeeded`, and the explanation call
returns `expl`. -/
def succeedsWith (env : AttemptEnv) (expl : String) (pollFuel : Nat) : Prop :=
  (∃ d, env.fetchBackend = .ok d) ∧
  (∃ fj, env.parsed = .ok fj ∧ fj.manual_intervention_required = none) ∧
  env.updateBackend = .ok () ∧
  (∃ r, env.triggerBackend = .ok r) ∧
  (∃ n, n < pollFuel ∧ (∀ j, j < n → nonTerminalReply (env.poll j) = true) ∧
    ∃ id msg, env.poll n = .record id "Succeeded" msg) ∧
  env.analysis = .ok expl

/-- Concrete instances used by the closed counterexamples and
witnesses. -/
def actA : Activity := ⟨"CopyA", "settings-v1"⟩

/-- The original definition of the concrete sessions: one activity
named `CopyA`. -/
def defnW : PipelineDefinition := ⟨"pl1", [actA], [], [], []⟩

/-- A well-formed patch that keeps the pipeline and activity names. -/
def patchW : FixJson := ⟨none, some "pl1", some [actA], some [], some [], some [], []⟩

/-- A patch that renames the activity `CopyA` to `CopyB`. -/
def patchRenamed : FixJson :=
  ⟨none, some "pl1", some [⟨"CopyB", "settings-v1"⟩], some [], some [], some [], []⟩

/-- A proposer verdict carrying the manual-intervention key. -/
def manualFix : FixJson := ⟨some "Check credentials", none, none, none, none, none, []⟩

/-- The session constants of the concrete sessions. -/
def cfgW : SessionCfg := ⟨"pl1", "CopyA"⟩

/-- Polls that report `Succeeded` immediately. -/
def okPoll : Nat → PollReply := fun _ => .record "r1" "Succeeded" (some "")

/-- Polls that report `Failed` with message `e` immediately. -/
def failPoll (e : String) : Nat → PollReply := fun _ => .record "r1" "Failed" (some e)

/-- A full-cycle environment whose retriggered run succeeds. -/
def envSuccess : AttemptEnv :=
  ⟨.ok defnW, .ok patchW, .ok (), .ok "r1", okPoll, .ok "explained"⟩

/-- A full-cycle environment whose retriggered run fails with `e`. -/
def envFail (e : String) : AttemptEnv :=
  ⟨.ok defnW, .ok patchW, .ok (), .ok "r1", failPoll e, .ok "explained"⟩

/-- An environment whose proposer text does not parse
(`json.JSONDecodeError`). -/
def envParseFail : AttemptEnv :=
  ⟨.ok defnW, .error "Expecting value", .ok (), .ok "r1", okPoll, .ok "explained"⟩

/-- An environment whose proposer returns the manual verdict. -/
def envManual : AttemptEnv :=
  ⟨.ok defnW, .ok manualFix, .ok (), .ok "r1", okPoll, .ok "explained"⟩

/-- A full-cycle environment whose first status poll returns the
`{"error": ...}` dict. -/
def envPollError : AttemptEnv :=
  ⟨.ok defnW, .ok patchW, .ok (), .ok "r1",
   fun _ => .errorDict "Error getting pipeline run status: timeout", .ok "explained"⟩

/-- A full-cycle environment whose run succeeds but whose explanation
call raises an exception outside the caught tuple. -/
def envAnalysisDown : AttemptEnv :=
  ⟨.ok defnW, .ok patchW, .ok (), .ok "r1", okPoll,
   .error (.otherError, "completion service unavailable")⟩

/-- A full-cycle environment applying the renaming patch, run
succeeding. -/
def envRenameSuccess : AttemptEnv :=
  ⟨.ok defnW, .ok patchRenamed, .ok (), .ok "r1", okPoll, .ok "explained"⟩

/-- An environment whose definition fetch fails. -/
def envFetchErr : AttemptEnv :=
  ⟨.error "boom", .ok patchW, .ok (), .ok "r1", okPoll, .ok "explained"⟩

/-- An environment whose pipeline update fails at the backend. -/
def envUpdateErr : AttemptEnv :=
  ⟨.ok defnW, .ok patchW, .error "quota", .ok "r1", okPoll, .ok "explained"⟩

/-- An environment whose run trigger fails at the backend. -/
def envTriggerErr : AttemptEnv :=
  ⟨.ok defnW, .ok patchW, .ok (), .error "throttled", okPoll, .ok "explained"⟩

/-- Three full-cycle failing environments with distinct run errors, for
the exhaustion witness. -/
def envsExh : Nat → AttemptEnv
  | 0 => envFail "EA"
  | 1 => envFail "EB"
  | _ => envFail "EC"

/-- Polls that report a non-terminal status forever. -/
def inProgressPoll : Nat → PollReply := fun _ => .record "r1" "InProgress" none

/-- Polls whose first reply is non-terminal and whose second is
terminal. -/
def queuedThenDonePoll : Nat → PollReply
  | 0 => .record "r1" "Queued" none
  | _ => .record "r1" "Succeeded" none

/-- What `update_pipeline` writes for `patchW` under name `pl1`. -/
def writtenW : WrittenPipeline :=
  ⟨"pl1", ⟨patchW.activities, patchW.parameters, patchW.«variables», patchW.annotations⟩⟩

/-- What `update_pipeline` writes for the renaming patch under `pl1`. -/
def writtenRenamed : WrittenPipeline :=
  ⟨"pl1", ⟨patchRenamed.activities, patchRenamed.parameters, patchRenamed.«variables»,
    patchRenamed.annotations⟩⟩

/-! ### Helper lemmas about the monitor loop and event counts -/

theorem countEvents_append (p : Event → Bool) (l1 l2 : List Event) :
    countEvents p (l1 ++ l2) = countEvents p l1 + countEvents p l2 :=
  List.countP_append _ _ _

theorem countEvents_pollEvents (p : Event → Bool) (a n : Nat)
    (h : ∀ j, p (Event.poll a j) = false) :
    countEvents p (pollEvents a n) = 0 := by
  rw [countEvents, pollEvents, List.countP_map]
  exact List.countP_eq_zero.mpr (by intro j _; simp [Function.comp, h])

theorem countMonitorEnter_pollEvents (a n : Nat) :
    countEvents isMonitorEnterEv (pollEvents a (n + 1)) = 1 := by
  rw [countEvents, pollEvents, List.countP_map, List.range_succ_eq_map]
  rw [List.countP_cons]
  have h0 : (List.map Nat.succ (List.range n)).countP
      (fun j => isMonitorEnterEv (Event.poll a j)) = 0 := by
    rw [List.countP_map]
    exact List.countP_eq_zero.mpr (by intro j _; simp [Function.comp, isMonitorEnterEv])
  simp [Function.comp, h0, isMonitorEnterEv]

theorem proposeErrors_append (l1 l2 : List Event) :
    proposeErrors (l1 ++ l2) = proposeErrors l1 ++ proposeErrors l2 :=
  List.filterMap_append _ _ _

theorem proposeErrors_pollEvents (a n : Nat) :
    proposeErrors (pollEvents a n) = [] := by
  rw [proposeErrors, pollEvents, List.filterMap_map]
  exact List.filterMap_eq_nil_iff.mpr (by intro j _; simp [Function.comp])

theorem attOf_pollEvents {e : Event} {a n : Nat} (h : e ∈ pollEvents a n) :
    attOf e = a := by
  rw [pollEvents] at h
  rcases List.mem_map.mp h with ⟨j, _, rfl⟩
  rfl

theorem countEvents_zero_of_att {p : Event → Bool} {evs : List Event} {a k : Nat}
    (hp : ∀ e, p e = true → attOf e = k)
    (h : ∀ e ∈ evs, attOf e = a) (hne : a ≠ k) :
    countEvents p evs = 0 :=
  List.countP_eq_zero.mpr (by
    intro e he hpe
    exact hne ((h e he).symm.trans (hp e hpe) ▸ rfl))

theorem isUpdateAt_att {k : Nat} (e : Event) (h : isUpdateAt k e = true) :
    attOf e = k := by
  cases e <;> simp_all [isUpdateAt, attOf]

theorem isTriggerAt_att {k : Nat} (e : Event) (h : isTriggerAt k e = true) :
    attOf e = k := by
  cases e <;> simp_all [isTriggerAt, attOf]

theorem monitorRun_step (poll : Nat → PollReply) (fuel i t : Nat)
    (h : nonTerminalReply (poll i) = true) :
    monitorRun poll (fuel + 1) i t = monitorRun poll fuel (i + 1) (t + 10) := by
  rcases hp : poll i with ⟨id, st, msg⟩ | m
  · rw [hp] at h
    simp only [nonTerminalReply, terminalStatus, Bool.not_eq_true', Bool.or_eq_false_iff,
      beq_eq_false_iff_ne, ne_eq] at h
    obtain ⟨⟨h1, h2⟩, h3⟩ := h
    simp [monitorRun, hp, h1, h2, h3]
  · rw [hp] at h
    simp [nonTerminalReply] at h

theorem monitorRun_noTerminal (poll : Nat → PollReply)
    (h : ∀ j, nonTerminalReply (poll j) = true) :
    ∀ fuel i t, monitorRun poll fuel i t = none := by
  intro fuel
  induction fuel with
  | zero => intro i t; rfl
  | succ f ih =>
    intro i t
    rw [monitorRun_step poll f i t (h i)]
    exact ih _ _

theorem monitorRun_succeedsAt (poll : Nat → PollReply) :
    ∀ (n fuel i t : Nat),
      (∀ j, j < n → nonTerminalReply (poll (i + j)) = true) →
      (∃ id msg, poll (i + n) = .record id "Succeeded" msg) →
      n < fuel →
      monitorRun poll fuel i t = some (.succeeded, i + n + 1, t + 10 * (n + 1)) := by
  intro n
  induction n with
  | zero =>
    intro fuel i t _ hterm hfuel
    obtain ⟨id, msg, hp⟩ := hterm
    obtain ⟨f, rfl⟩ := Nat.exists_eq_succ_of_ne_zero (Nat.pos_iff_ne_zero.mp hfuel)
    rw [Nat.add_zero] at hp
    simp [monitorRun, hp]
  | succ n ih =>
    intro fuel i t hnt hterm hfuel
    obtain ⟨f, rfl⟩ := Nat.exists_eq_succ_of_ne_zero
      (Nat.pos_iff_ne_zero.mp (Nat.lt_of_le_of_lt (Nat.zero_le _) hfuel))
    have h0 : nonTerminalReply (poll i) = true := by
      have := hnt 0 (Nat.succ_pos n); rwa [Nat.add_zero] at this
    rw [monitorRun_step poll f i t h0]
    have hres := ih f (i + 1) (t + 10)
      (by intro j hj
          have := hnt (j + 1) (Nat.succ_lt_succ hj)
          rwa [show i + (j + 1) = i + 1 + j by omega] at this)
      (by obtain ⟨id, msg, hp⟩ := hterm
          exact ⟨id, msg, by rwa [show i + 1 + n = i + (n + 1) by omega]⟩)
      (Nat.lt_of_succ_lt_succ hfuel)
    have hn : i + 1 + n + 1 = i + (n + 1) + 1 := by omega
    have ht : t + 10 + 10 * (n + 1) = t + 10 * (n + 1 + 1) := by omega
    rw [hn, ht] at hres
    exact hres

theorem monitorRun_failsAt (poll : Nat → PollReply) :
    ∀ (n fuel i t : Nat) (id st : String) (msg : Option String),
      (∀ j, j < n → nonTerminalReply (poll (i + j)) = true) →
      poll (i + n) = .record id st msg →
      (st = "Failed" ∨ st = "Cancelled") →
      n < fuel →
      monitorRun poll fuel i t =
        some (.failedOrCancelled (pyOptionStr msg), i + n + 1, t + 10 * (n + 1)) := by
  intro n
  induction n with
  | zero =>
    intro fuel i t id st msg _ hp hst hfuel
    obtain ⟨f, rfl⟩ := Nat.exists_eq_succ_of_ne_zero (Nat.pos_iff_ne_zero.mp hfuel)
    rw [Nat.add_zero] at hp
    rcases hst with rfl | rfl <;> simp [monitorRun, hp]
  | succ n ih =>
    intro fuel i t id st msg hnt hp hst hfuel
    obtain ⟨f, rfl⟩ := Nat.exists_eq_succ_of_ne_zero
      (Nat.pos_iff_ne_zero.mp (Nat.lt_of_le_of_lt (Nat.zero_le _) hfuel))
    have h0 : nonTerminalReply (poll i) = true := by
      have := hnt 0 (Nat.succ_pos n); rwa [Nat.add_zero] at this
    rw [monitorRun_step poll f i t h0]
    have hres := ih f (i + 1) (t + 10) id st msg
      (by intro j hj
          have := hnt (j + 1) (Nat.succ_lt_succ hj)
          rwa [show i + (j + 1) = i + 1 + j by omega] at this)
      (by rwa [show i + 1 + n = i + (n + 1) by omega])
      hst (Nat.lt_of_succ_lt_succ hfuel)
    have hn : i + 1 + n + 1 = i + (n + 1) + 1 := by omega
    have ht : t + 10 + 10 * (n + 1) = t + 10 * (n + 1 + 1) := by omega
    rw [hn, ht] at hres
    exact hres

theorem monitorRun_keyErrorAt (poll : Nat → PollReply) :
    ∀ (n fuel i t : Nat) (m : String),
      (∀ j, j < n → nonTerminalReply (poll (i + j)) = true) →
      poll (i + n) = .errorDict m →
      n < fuel →
      monitorRun poll fuel i t = some (.gatewayKeyError m, i + n + 1, t + 10 * (n + 1)) := by
  intro n
  induction n with
  | zero =>
    intro fuel i t m _ hp hfuel
    obtain ⟨f, rfl⟩ := Nat.exists_eq_succ_of_ne_zero (Nat.pos_iff_ne_zero.mp hfuel)
    rw [Nat.add_zero] at hp
    simp [monitorRun, hp]
  | succ n ih =>
    intro fuel i t m hnt hp hfuel
    obtain ⟨f, rfl⟩ := Nat.exists_eq_succ_of_ne_zero
      (Nat.pos_iff_ne_zero.mp (Nat.lt_of_le_of_lt (Nat.zero_le _) hfuel))
    have h0 : nonTerminalReply (poll i) = true := by
      have := hnt 0 (Nat.succ_pos n); rwa [Nat.add_zero] at this
    rw [monitorRun_step poll f i t h0]
    have hres := ih f (i + 1) (t + 10) m
      (by intro j hj
          have := hnt (j + 1) (Nat.succ_lt_succ hj)
          rwa [show i + (j + 1) = i + 1 + j by omega] at this)
      (by rwa [show i + 1 + n = i + (n + 1) by omega])
      (Nat.lt_of_succ_lt_succ hfuel)
    have hn : i + 1 + n + 1 = i + (n + 1) + 1 := by omega
    have ht : t + 10 + 10 * (n + 1) = t + 10 * (n + 1 + 1) := by omega
    rw [hn, ht] at hres
    exact hres

theorem monitorRun_exit (poll : Nat → PollReply) :
    ∀ (fuel i t : Nat) (obs : TerminalObs) (n t' : Nat),
      (∀ j, recordReply (poll j) = true) →
      monitorRun poll fuel i t = some (obs, n, t') →
      i < n ∧ t' = t + 10 * (n - i) ∧
      (∀ j, i ≤ j → j + 1 < n → nonTerminalReply (poll j) = true) ∧
      terminalReply (poll (n - 1)) = true := by
  intro fuel
  induction fuel with
  | zero => intro i t obs n t' _ hmon; exact absurd hmon (by simp [monitorRun])
  | succ f ih =>
    intro i t obs n t' hrec hmon
    rcases hp : poll i with ⟨id, st, msg⟩ | m
    · by_cases h1 : st = "Succeeded"
      · rw [monitorRun] at hmon
        simp only [hp, h1, if_pos, if_true] at hmon
        obtain ⟨rfl, rfl, rfl⟩ : obs = .succeeded ∧ n = i + 1 ∧ t' = t + 10 := by
          simpa [Prod.ext_iff] using hmon.symm
        refine ⟨Nat.lt_succ_self i, by omega, ?_, ?_⟩
        · intro j hij hj1; omega
        · simp [terminalReply, hp, h1, terminalStatus]
      · by_cases h2 : st = "Failed" ∨ st = "Cancelled"
        · rw [monitorRun] at hmon
          simp only [hp, h1, h2, if_false, if_true, ite_true, ite_false] at hmon
          obtain ⟨rfl, rfl, rfl⟩ :
              obs = .failedOrCancelled (pyOptionStr msg) ∧ n = i + 1 ∧ t' = t + 10 := by
            simpa [Prod.ext_iff] using hmon.symm
          refine ⟨Nat.lt_succ_self i, by omega, ?_, ?_⟩
          · intro j hij hj1; omega
          · rcases h2 with rfl | rfl <;> simp [terminalReply, hp, terminalStatus]
        · have hntr : nonTerminalReply (poll i) = true := by
            push_neg at h2
            simp [nonTerminalReply, hp, terminalStatus, h1, h2.1, h2.2]
          rw [monitorRun_step poll f i t hntr] at hmon
          obtain ⟨hin, ht', hnt, hterm⟩ := ih (i + 1) (t + 10) obs n t' hrec hmon
          refine ⟨by omega, by omega, ?_, hterm⟩
          intro j hij hj1
          rcases Nat.eq_or_lt_of_le hij with rfl | hlt
          · exact hntr
          · exact hnt j hlt hj1
    · have := hrec i
      rw [hp] at this
      simp [recordReply] at this

/-! ### Helper lemmas about one loop iteration -/

theorem attemptStep_fetchError (cfg : SessionCfg) (env : AttemptEnv) (att : Nat)
    (cur : String) (pollFuel : Nat) (m : String)
    (hf : env.fetchBackend = .error m) :
    attemptStep cfg env att cur pollFuel =
      (.caught ("Failed to get pipeline definition: " ++
        ("Error getting pipeline definition: " ++ m)) cur, [.fetch att]) := by
  simp [attemptStep, get_pipeline_definition, hf]

theorem attemptStep_parseError (cfg : SessionCfg) (env : AttemptEnv) (att : Nat)
    (cur : String) (pollFuel : Nat) (d : PipelineDefinition) (m : String)
    (hf : env.fetchBackend = .ok d) (hp : env.parsed = .error m) :
    attemptStep cfg env att cur pollFuel =
      (.caught m cur, [.fetch att, .propose att d cur cfg.activityName]) := by
  simp [attemptStep, get_pipeline_definition, hf, hp]

theorem attemptStep_manual (cfg : SessionCfg) (env : AttemptEnv) (att : Nat)
    (cur : String) (pollFuel : Nat) (d : PipelineDefinition) (fj : FixJson) (expl : String)
    (hf : env.fetchBackend = .ok d) (hp : env.parsed = .ok fj)
    (hm : fj.manual_intervention_required = some expl) :
    attemptStep cfg env att cur pollFuel =
      (.manual expl, [.fetch att, .propose att d cur cfg.activityName]) := by
  simp [attemptStep, get_pipeline_definition, hf, hp, hm]

theorem attemptStep_updateError (cfg : SessionCfg) (env : AttemptEnv) (att : Nat)
    (cur : String) (pollFuel : Nat) (d : PipelineDefinition) (fj : FixJson) (m : String)
    (hf : env.fetchBackend = .ok d) (hp : env.parsed = .ok fj)
    (hm : fj.manual_intervention_required = none)
    (hu : env.updateBackend = .error m) :
    attemptStep cfg env att cur pollFuel =
      (.caught ("Failed to update pipeline: " ++ ("Error updating pipeline: " ++ m)) cur,
       [.fetch att, .propose att d cur cfg.activityName, .updateCall att fj]) := by
  simp [attemptStep, get_pipeline_definition, update_pipeline, hf, hp, hm, hu]

theorem attemptStep_triggerError (cfg : SessionCfg) (env : AttemptEnv) (att : Nat)
    (cur : String) (pollFuel : Nat) (d : PipelineDefinition) (fj : FixJson) (m : String)
    (hf : env.fetchBackend = .ok d) (hp : env.parsed = .ok fj)
    (hm : fj.manual_intervention_required = none)
    (hu : env.updateBackend = .ok ())
    (ht : env.triggerBackend = .error m) :
    attemptStep cfg env att cur pollFuel =
      (.caught ("Failed to retrigger pipeline: " ++ ("Error creating pipeline run: " ++ m)) cur,
       [.fetch att, .propose att d cur cfg.activityName, .updateCall att fj,
        .triggerCall att]) := by
  simp [attemptStep, get_pipeline_definition, update_pipeline, create_pipeline_run,
    hf, hp, hm, hu, ht]

theorem attemptStep_runFails (cfg : SessionCfg) (env : AttemptEnv) (att : Nat)
    (cur : String) (pollFuel : Nat) (d : PipelineDefinition) (fj : FixJson) (r : String)
    (n : Nat) (id st : String) (msg : Option String)
    (hf : env.fetchBackend = .ok d) (hp : env.parsed = .ok fj)
    (hm : fj.manual_intervention_required = none)
    (hu : env.updateBackend = .ok ())
    (ht : env.triggerBackend = .ok r)
    (hnt : ∀ j, j < n → nonTerminalReply (env.poll j) = true)
    (hterm : env.poll n = .record id st msg)
    (hst : st = "Failed" ∨ st = "Cancelled")
    (hfuel : n < pollFuel) :
    attemptStep cfg env att cur pollFuel =
      (.caught ("New run failed. Error: " ++ pyOptionStr msg) (pyOptionStr msg),
       [.fetch att, .propose att d cur cfg.activityName, .updateCall att fj,
        .triggerCall att] ++ pollEvents att (n + 1)) := by
  have hmon := monitorRun_failsAt env.poll n pollFuel 0 0 id st msg
    (by simpa using hnt) (by simpa using hterm) hst hfuel
  simp only [Nat.zero_add] at hmon
  simp [attemptStep, get_pipeline_definition, update_pipeline, create_pipeline_run,
    hf, hp, hm, hu, ht, hmon]

theorem attemptStep_success (cfg : SessionCfg) (env : AttemptEnv) (att : Nat)
    (cur : String) (pollFuel : Nat) (d : PipelineDefinition) (fj : FixJson) (r : String)
    (n : Nat) (id : String) (msg : Option String) (expl : String)
    (hf : env.fetchBackend = .ok d) (hp : env.parsed = .ok fj)
    (hm : fj.manual_intervention_required = none)
    (hu : env.updateBackend = .ok ())
    (ht : env.triggerBackend = .ok r)
    (hnt : ∀ j, j < n → nonTerminalReply (env.poll j) = true)
    (hterm : env.poll n = .record id "Succeeded" msg)
    (ha : env.analysis = .ok expl)
    (hfuel : n < pollFuel) :
    attemptStep cfg env att cur pollFuel =
      (.ok expl,
       [.fetch att, .propose att d cur cfg.activityName, .updateCall att fj,
        .triggerCall att] ++ pollEvents att (n + 1) ++ [.analyze att cur]) := by
  have hmon := monitorRun_succeedsAt env.poll n pollFuel 0 0
    (by simpa using hnt) ⟨id, msg, by simpa using hterm⟩ hfuel
  simp only [Nat.zero_add] at hmon
  simp [attemptStep, get_pipeline_definition, update_pipeline, create_pipeline_run,
    hf, hp, hm, hu, ht, hmon, ha]

theorem attemptStep_analysisExc (cfg : SessionCfg) (env : AttemptEnv) (att : Nat)
    (cur : String) (pollFuel : Nat) (d : PipelineDefinition) (fj : FixJson) (r : String)
    (n : Nat) (id : String) (msg : Option String) (k : ExcKind) (m : String)
    (hf : env.fetchBackend = .ok d) (hp : env.parsed = .ok fj)
    (hm : fj.manual_intervention_required = none)
    (hu : env.updateBackend = .ok ())
    (ht : env.triggerBackend = .ok r)
    (hnt : ∀ j, j < n → nonTerminalReply (env.poll j) = true)
    (hterm : env.poll n = .record id "Succeeded" msg)
    (ha : env.analysis = .error (k, m))
    (hfuel : n < pollFuel) :
    attemptStep cfg env att cur pollFuel =
      ((if isCaughtExc k then .caught m cur else .uncaught),
       [.fetch att, .propose att d cur cfg.activityName, .updateCall att fj,
        .triggerCall att] ++ pollEvents att (n + 1) ++ [.analyze att cur]) := by
  have hmon := monitorRun_succeedsAt env.poll n pollFuel 0 0
    (by simpa using hnt) ⟨id, msg, by simpa using hterm⟩ hfuel
  simp only [Nat.zero_add] at hmon
  simp [attemptStep, get_pipeline_definition, update_pipeline, create_pipeline_run,
    hf, hp, hm, hu, ht, hmon, ha]

theorem attemptStep_pollErrorDict (cfg : SessionCfg) (env : AttemptEnv) (att : Nat)
    (cur : String) (pollFuel : Nat) (d : PipelineDefinition) (fj : FixJson) (r : String)
    (n : Nat) (m : String)
    (hf : env.fetchBackend = .ok d) (hp : env.parsed = .ok fj)
    (hm : fj.manual_intervention_required = none)
    (hu : env.updateBackend = .ok ())
    (ht : env.triggerBackend = .ok r)
    (hnt : ∀ j, j < n → nonTerminalReply (env.poll j) = true)
    (hterm : env.poll n = .errorDict m)
    (hfuel : n < pollFuel) :
    (attemptStep cfg env att cur pollFuel).1 = .uncaught := by
  have hmon := monitorRun_keyErrorAt env.poll n pollFuel 0 0 m
    (by simpa using hnt) (by simpa using hterm) hfuel
  simp only [Nat.zero_add] at hmon
  simp [attemptStep, get_pipeline_definition, update_pipeline, create_pipeline_run,
    hf, hp, hm, hu, ht, hmon]

@[simp] theorem countEvents_nil (p : Event → Bool) : countEvents p [] = 0 := rfl

@[simp] theorem countEvents_cons (p : Event → Bool) (e : Event) (l : List Event) :
    countEvents p (e :: l) = (if p e then 1 else 0) + countEvents p l := by
  simp only [countEvents, List.countP_cons]
  by_cases h : p e
  · simp [h]; omega
  · simp [h]

@[simp] theorem countEvents_append_simp (p : Event → Bool) (l1 l2 : List Event) :
    countEvents p (l1 ++ l2) = countEvents p l1 + countEvents p l2 :=
  countEvents_append p l1 l2

@[simp] theorem countFetch_pollEvents (a n : Nat) :
    countEvents isFetchEv (pollEvents a n) = 0 :=
  countEvents_pollEvents _ _ _ (fun _ => rfl)

@[simp] theorem countPropose_pollEvents (a n : Nat) :
    countEvents isProposeEv (pollEvents a n) = 0 :=
  countEvents_pollEvents _ _ _ (fun _ => rfl)

@[simp] theorem countUpdate_pollEvents (a n : Nat) :
    countEvents isUpdateEv (pollEvents a n) = 0 :=
  countEvents_pollEvents _ _ _ (fun _ => rfl)

@[simp] theorem countTrigger_pollEvents (a n : Nat) :
    countEvents isTriggerEv (pollEvents a n) = 0 :=
  countEvents_pollEvents _ _ _ (fun _ => rfl)

theorem attemptStep_events_spec (cfg : SessionCfg) (env : AttemptEnv) (att : Nat)
    (cur : String) (pollFuel : Nat) :
    countEvents isFetchEv (attemptStep cfg env att cur pollFuel).2 = 1 ∧
    ∀ e ∈ (attemptStep cfg env att cur pollFuel).2, attOf e = att := by
  obtain ⟨fb, pr, ub, tb, pl, an⟩ := env
  rcases fb with m | d
  · simp [attemptStep, get_pipeline_definition, isFetchEv, attOf]
  rcases pr with m | fj
  · simp [attemptStep, get_pipeline_definition, isFetchEv, attOf]
  rcases hm : fj.manual_intervention_required with _ | expl
  case some =>
    simp [attemptStep, get_pipeline_definition, hm, isFetchEv, attOf]
  rcases ub with m | u
  · simp [attemptStep, get_pipeline_definition, update_pipeline, hm, isFetchEv, attOf]
  rcases tb with m | r
  · simp [attemptStep, get_pipeline_definition, update_pipeline, create_pipeline_run,
      hm, isFetchEv, attOf]
  rcases hmon : monitorRun pl pollFuel 0 0 with _ | ⟨obs, n, t⟩
  · constructor
    · simp [attemptStep, get_pipeline_definition, update_pipeline, create_pipeline_run,
        hm, hmon, isFetchEv]
    · intro e he
      simp only [attemptStep, get_pipeline_definition, update_pipeline,
        create_pipeline_run, hm, hmon, List.mem_append, List.mem_cons,
        List.not_mem_nil, or_false] at he
      rcases he with (rfl | rfl | rfl | rfl) | hpe
      · rfl
      · rfl
      · rfl
      · rfl
      · exact attOf_pollEvents hpe
  rcases obs with _ | msg | m
  · have hev2 : (attemptStep cfg ⟨.ok d, .ok fj, .ok u, .ok r, pl, an⟩ att cur pollFuel).2 =
        ([Event.fetch att, Event.propose att d cur cfg.activityName,
          Event.updateCall att fj, Event.triggerCall att] : List Event)
          ++ pollEvents att n ++ [Event.analyze att cur] := by
      rcases an with ⟨k, m⟩ | text
      · simp [attemptStep, get_pipeline_definition, update_pipeline, create_pipeline_run,
          hm, hmon]
      · simp [attemptStep, get_pipeline_definition, update_pipeline, create_pipeline_run,
          hm, hmon]
    rw [hev2]
    constructor
    · simp [isFetchEv]
    · intro e he
      simp only [List.mem_append, List.mem_cons, List.not_mem_nil, or_false] at he
      rcases he with ((rfl | rfl | rfl | rfl) | hpe) | rfl
      · rfl
      · rfl
      · rfl
      · rfl
      · exact attOf_pollEvents hpe
      · rfl
  · constructor
    · simp [attemptStep, get_pipeline_definition, update_pipeline, create_pipeline_run,
        hm, hmon, isFetchEv]
    · intro e he
      simp only [attemptStep, get_pipeline_definition, update_pipeline,
        create_pipeline_run, hm, hmon, List.mem_append, List.mem_cons,
        List.not_mem_nil, or_false] at he
      rcases he with (rfl | rfl | rfl | rfl) | hpe
      · rfl
      · rfl
      · rfl
      · rfl
      · exact attOf_pollEvents hpe
  · constructor
    · simp [attemptStep, get_pipeline_definition, update_pipeline, create_pipeline_run,
        hm, hmon, isFetchEv]
    · intro e he
      simp only [attemptStep, get_pipeline_definition, update_pipeline,
        create_pipeline_run, hm, hmon, List.mem_append, List.mem_cons,
        List.not_mem_nil, or_false] at he
      rcases he with (rfl | rfl | rfl | rfl) | hpe
      · rfl
      · rfl
      · rfl
      · rfl
      · exact attOf_pollEvents hpe

theorem attemptStep_of_failsWith (cfg : SessionCfg) (env : AttemptEnv) (att : Nat)
    (cur : String) (pollFuel : Nat) (e : String)
    (h : failsWith env e pollFuel) :
    ∃ evs, attemptStep cfg env att cur pollFuel =
        (.caught ("New run failed. Error: " ++ e) e, evs) ∧
      countEvents isFetchEv evs = 1 ∧ countEvents isProposeEv evs = 1 ∧
      countEvents isUpdateEv evs = 1 ∧ countEvents isTriggerEv evs = 1 ∧
      countEvents isMonitorEnterEv evs = 1 ∧
      proposeErrors evs = [cur] ∧ ∀ ev ∈ evs, attOf ev = att := by
  obtain ⟨⟨d, hf⟩, ⟨fj, hp, hm⟩, hu, ⟨r, ht⟩, n, hn, hnt, id, st, hst, hpoll⟩ := h
  have heq := attemptStep_runFails cfg env att cur pollFuel d fj r n id st (some e)
    hf hp hm hu ht hnt hpoll hst hn
  rw [show pyOptionStr (some e) = e from rfl] at heq
  refine ⟨_, heq, ?_, ?_, ?_, ?_, ?_, ?_, ?_⟩
  · simp [isFetchEv]
  · simp [isProposeEv]
  · simp [isUpdateEv]
  · simp [isTriggerEv]
  · simp [countMonitorEnter_pollEvents, isMonitorEnterEv]
  · rw [proposeErrors_append, proposeErrors_pollEvents]
    simp [proposeErrors]
  · intro ev hev
    simp only [List.mem_append, List.mem_cons, List.not_mem_nil, or_false] at hev
    rcases hev with (rfl | rfl | rfl | rfl) | hpe
    · rfl
    · rfl
    · rfl
    · rfl
    · exact attOf_pollEvents hpe

theorem attemptStep_of_succeedsWith (cfg : SessionCfg) (env : AttemptEnv) (att : Nat)
    (cur : String) (pollFuel : Nat) (expl : String)
    (h : succeedsWith env expl pollFuel) :
    ∃ evs, attemptStep cfg env att cur pollFuel = (.ok expl, evs) ∧
      countEvents isFetchEv evs = 1 ∧ countEvents isProposeEv evs = 1 ∧
      countEvents isUpdateEv evs = 1 ∧ countEvents isTriggerEv evs = 1 ∧
      countEvents isMonitorEnterEv evs = 1 ∧
      proposeErrors evs = [cur] ∧ ∀ ev ∈ evs, attOf ev = att := by
  obtain ⟨⟨d, hf⟩, ⟨fj, hp, hm⟩, hu, ⟨r, ht⟩, ⟨n, hn, hnt, id, msg, hpoll⟩, ha⟩ := h
  have heq := attemptStep_success cfg env att cur pollFuel d fj r n id msg expl
    hf hp hm hu ht hnt hpoll ha hn
  refine ⟨_, heq, ?_, ?_, ?_, ?_, ?_, ?_, ?_⟩
  · simp [isFetchEv]
  · simp [isProposeEv]
  · simp [isUpdateEv]
  · simp [isTriggerEv]
  · simp [countMonitorEnter_pollEvents, isMonitorEnterEv]
  · rw [proposeErrors_append, proposeErrors_append, proposeErrors_pollEvents]
    simp [proposeErrors]
  · intro ev hev
    simp only [List.mem_append, List.mem_cons, List.not_mem_nil, or_false] at hev
    rcases hev with ((rfl | rfl | rfl | rfl) | hpe) | rfl
    · rfl
    · rfl
    · rfl
    · rfl
    · exact attOf_pollEvents hpe
    · rfl

theorem autofixOver_fetch_le (cfg : SessionCfg) (envs : Nat → AttemptEnv) (pollFuel : Nat) :
    ∀ (l : List Nat) (cur : String),
      countEvents isFetchEv (autofixOver cfg envs pollFuel l cur).2 ≤ l.length := by
  intro l
  induction l with
  | nil => intro cur; simp [autofixOver]
  | cons att rest ih =>
    intro cur
    have h1 := (attemptStep_events_spec cfg (envs att) att cur pollFuel).1
    cases hout : (attemptStep cfg (envs att) att cur pollFuel).1 with
    | ok e =>
      simp only [autofixOver, hout, List.length_cons]
      omega
    | manual e =>
      simp only [autofixOver, hout, List.length_cons]
      omega
    | noTerminal =>
      simp only [autofixOver, hout, List.length_cons]
      omega
    | uncaught =>
      simp only [autofixOver, hout, List.length_cons]
      omega
    | caught m ne =>
      by_cases hlt : att < MAX_FIX_ATTEMPTS - 1
      · have h2 := ih ne
        simp only [autofixOver, hout, hlt, if_pos, if_true, List.length_cons,
          countEvents_append_simp]
        omega
      · simp only [autofixOver, hout, hlt, if_neg, if_false, List.length_cons]
        omega

/-! ### The claims -/

/-- C1: however many consecutive attempt failures occur, the auto-fix
loop performs at most `MAX_FIX_ATTEMPTS = 3` attempts (each attempt
starts with exactly one definition fetch, so attempts are counted by
fetch events); and when all three attempts run the full cycle and each
retriggered run ends `Failed`, the session ends `exhausted` carrying
the third run's error, having made exactly three
fetch/propose/apply/trigger/monitor cycles. -/
theorem bounded_attempts_and_exhaustion :
    (∀ (cfg : SessionCfg) (envs : Nat → AttemptEnv) (pollFuel : Nat) (initialError : String),
       countEvents isFetchEv (run_autofix cfg envs pollFuel initialError).2 ≤
         MAX_FIX_ATTEMPTS) ∧
    (∀ (cfg : SessionCfg) (envs : Nat → AttemptEnv) (pollFuel : Nat)
       (initialError e0 e1 e2 : String),
       failsWith (envs 0) e0 pollFuel →
       failsWith (envs 1) e1 pollFuel →
       failsWith (envs 2) e2 pollFuel →
       (run_autofix cfg envs pollFuel initialError).1 =
         .exhausted ("New run failed. Error: " ++ e2) e2 ∧
       countEvents isFetchEv (run_autofix cfg envs pollFuel initialError).2 =
         MAX_FIX_ATTEMPTS ∧
       countEvents isProposeEv (run_autofix cfg envs pollFuel initialError).2 =
         MAX_FIX_ATTEMPTS ∧
       countEvents isUpdateEv (run_autofix cfg envs pollFuel initialError).2 =
         MAX_FIX_ATTEMPTS ∧
       countEvents isTriggerEv (run_autofix cfg envs pollFuel initialError).2 =
         MAX_FIX_ATTEMPTS ∧
       countEvents isMonitorEnterEv (run_autofix cfg envs pollFuel initialError).2 =
         MAX_FIX_ATTEMPTS) := by
  constructor
  · intro cfg envs pollFuel initialError
    have h := autofixOver_fetch_le cfg envs pollFuel (List.range MAX_FIX_ATTEMPTS)
      initialError
    simpa [run_autofix] using h
  · intro cfg envs pollFuel initialError e0 e1 e2 h0 h1 h2
    obtain ⟨evs0, hs0, c0f, c0p, c0u, c0t, c0m, c0e, c0a⟩ :=
      attemptStep_of_failsWith cfg (envs 0) 0 initialError pollFuel e0 h0
    obtain ⟨evs1, hs1, c1f, c1p, c1u, c1t, c1m, c1e, c1a⟩ :=
      attemptStep_of_failsWith cfg (envs 1) 1 e0 pollFuel e1 h1
    obtain ⟨evs2, hs2, c2f, c2p, c2u, c2t, c2m, c2e, c2a⟩ :=
      attemptStep_of_failsWith cfg (envs 2) 2 e1 pollFuel e2 h2
    have hrange : List.range MAX_FIX_ATTEMPTS = [0, 1, 2] := rfl
    have hsession : run_autofix cfg envs pollFuel initialError =
        (.exhausted ("New run failed. Error: " ++ e2) e2, evs0 ++ (evs1 ++ evs2)) := by
      rw [run_autofix, hrange]
      simp [autofixOver, hs0, hs1, hs2, MAX_FIX_ATTEMPTS]
    rw [hsession]
    refine ⟨rfl, ?_, ?_, ?_, ?_, ?_⟩
    · simp [c0f, c1f, c2f, MAX_FIX_ATTEMPTS]
    · simp [c0p, c1p, c2p, MAX_FIX_ATTEMPTS]
    · simp [c0u, c1u, c2u, MAX_FIX_ATTEMPTS]
    · simp [c0t, c1t, c2t, MAX_FIX_ATTEMPTS]
    · simp [c0m, c1m, c2m, MAX_FIX_ATTEMPTS]

/-- Witness for C1: the concrete three-failure session exhausts after
exactly three full cycles carrying the third run's error. -/
theorem bounded_attempts_and_exhaustion_witness :
    (run_autofix cfgW envsExh 1 "E0").1 =
      .exhausted ("New run failed. Error: " ++ "EC") "EC" ∧
    countEvents isFetchEv (run_autofix cfgW envsExh 1 "E0").2 = MAX_FIX_ATTEMPTS ∧
    countEvents isProposeEv (run_autofix cfgW envsExh 1 "E0").2 = MAX_FIX_ATTEMPTS ∧
    countEvents isUpdateEv (run_autofix cfgW envsExh 1 "E0").2 = MAX_FIX_ATTEMPTS ∧
    countEvents isTriggerEv (run_autofix cfgW envsExh 1 "E0").2 = MAX_FIX_ATTEMPTS ∧
    countEvents isMonitorEnterEv (run_autofix cfgW envsExh 1 "E0").2 = MAX_FIX_ATTEMPTS :=
  bounded_attempts_and_exhaustion.2 cfgW envsExh 1 "E0" "EA" "EB" "EC"
    ⟨⟨defnW, rfl⟩, ⟨patchW, rfl, rfl⟩, rfl, ⟨"r1", rfl⟩, 0, Nat.zero_lt_one,
      fun j hj => absurd hj (Nat.not_lt_zero j), "r1", "Failed", Or.inl rfl, rfl⟩
    ⟨⟨defnW, rfl⟩, ⟨patchW, rfl, rfl⟩, rfl, ⟨"r1", rfl⟩, 0, Nat.zero_lt_one,
      fun j hj => absurd hj (Nat.not_lt_zero j), "r1", "Failed", Or.inl rfl, rfl⟩
    ⟨⟨defnW, rfl⟩, ⟨patchW, rfl, rfl⟩, rfl, ⟨"r1", rfl⟩, 0, Nat.zero_lt_one,
      fun j hj => absurd hj (Nat.not_lt_zero j), "r1", "Failed", Or.inl rfl, rfl⟩

/-- C4: when attempt 1's retriggered run ends `Failed` with message
`e2`, that message replaces `current_error`, so attempt 2's proposer is
invoked with `e2` and not with the session's initial error `e1`; and in
the retry-then-succeed scenario the session returns success after
exactly 2 attempts. -/
theorem retry_then_succeed_error_propagation :
    ∀ (cfg : SessionCfg) (envs : Nat → AttemptEnv) (pollFuel : Nat) (e1 e2 expl : String),
      failsWith (envs 0) e2 pollFuel →
      succeedsWith (envs 1) expl pollFuel →
      (run_autofix cfg envs pollFuel e1).1 = .succeeded expl ∧
      countEvents isFetchEv (run_autofix cfg envs pollFuel e1).2 = 2 ∧
      proposeErrors (run_autofix cfg envs pollFuel e1).2 = [e1, e2] := by
  intro cfg envs pollFuel e1 e2 expl h0 h1
  obtain ⟨evs0, hs0, c0f, c0p, c0u, c0t, c0m, c0e, c0a⟩ :=
    attemptStep_of_failsWith cfg (envs 0) 0 e1 pollFuel e2 h0
  obtain ⟨evs1, hs1, c1f, c1p, c1u, c1t, c1m, c1e, c1a⟩ :=
    attemptStep_of_succeedsWith cfg (envs 1) 1 e2 pollFuel expl h1
  have hrange : List.range MAX_FIX_ATTEMPTS = [0, 1, 2] := rfl
  have hsession : run_autofix cfg envs pollFuel e1 = (.succeeded expl, evs0 ++ evs1) := by
    rw [run_autofix, hrange]
    simp [autofixOver, hs0, hs1, MAX_FIX_ATTEMPTS]
  rw [hsession]
  refine ⟨rfl, ?_, ?_⟩
  · simp [c0f, c1f]
  · simp [proposeErrors_append, c0e, c1e]

/-- Witness for C4: the concrete retry-then-succeed session: the first
run fails with `E2w`, the second attempt's proposer receives `E2w`, the
session succeeds with 2 attempts. -/
theorem retry_then_succeed_error_propagation_witness :
    (run_autofix cfgW (fun k => match k with | 0 => envFail "E2w" | _ => envSuccess)
      1 "E1w").1 = .succeeded "explained" ∧
    countEvents isFetchEv
      ((run_autofix cfgW (fun k => match k with | 0 => envFail "E2w" | _ => envSuccess)
        1 "E1w").2) = 2 ∧
    proposeErrors
      ((run_autofix cfgW (fun k => match k with | 0 => envFail "E2w" | _ => envSuccess)
        1 "E1w").2) = ["E1w", "E2w"] :=
  retry_then_succeed_error_propagation cfgW
    (fun k => match k with | 0 => envFail "E2w" | _ => envSuccess) 1 "E1w" "E2w" "explained"
    ⟨⟨defnW, rfl⟩, ⟨patchW, rfl, rfl⟩, rfl, ⟨"r1", rfl⟩, 0, Nat.zero_lt_one,
      fun j hj => absurd hj (Nat.not_lt_zero j), "r1", "Failed", Or.inl rfl, rfl⟩
    ⟨⟨defnW, rfl⟩, ⟨patchW, rfl, rfl⟩, rfl, ⟨"r1", rfl⟩,
      ⟨0, Nat.zero_lt_one, fun j hj => absurd hj (Nat.not_lt_zero j), "r1", some "", rfl⟩,
      rfl⟩

/-- C5: a proposer response that fails structural parsing is handled as
an attempt failure consuming one of the attempts: the attempt performs
no update and no trigger (its events are exactly the fetch and the
propose), the loop outcome is the caught-exception path rather than an
abort; and a parse failure on attempt 1 followed by a full success on
attempt 2 yields a successful session that used 2 attempts and
performed exactly one update and one trigger. -/
theorem parse_failure_consumes_attempt :
    (∀ (cfg : SessionCfg) (env : AttemptEnv) (att : Nat) (cur : String) (pollFuel : Nat)
       (d : PipelineDefinition) (m : String),
       env.fetchBackend = .ok d → env.parsed = .error m →
       attemptStep cfg env att cur pollFuel =
         (.caught m cur, [.fetch att, .propose att d cur cfg.activityName])) ∧
    (∀ (cfg : SessionCfg) (envs : Nat → AttemptEnv) (pollFuel : Nat)
       (initialError : String) (d : PipelineDefinition) (m expl : String),
       (envs 0).fetchBackend = .ok d → (envs 0).parsed = .error m →
       succeedsWith (envs 1) expl pollFuel →
       (run_autofix cfg envs pollFuel initialError).1 = .succeeded expl ∧
       countEvents isFetchEv (run_autofix cfg envs pollFuel initialError).2 = 2 ∧
       countEvents isUpdateEv (run_autofix cfg envs pollFuel initialError).2 = 1 ∧
       countEvents isTriggerEv (run_autofix cfg envs pollFuel initialError).2 = 1) := by
  constructor
  · intro cfg env att cur pollFuel d m hf hp
    exact attemptStep_parseError cfg env att cur pollFuel d m hf hp
  · intro cfg envs pollFuel initialError d m expl hf hp h1
    have hs0 := attemptStep_parseError cfg (envs 0) 0 initialError pollFuel d m hf hp
    obtain ⟨evs1, hs1, c1f, c1p, c1u, c1t, c1m, c1e, c1a⟩ :=
      attemptStep_of_succeedsWith cfg (envs 1) 1 initialError pollFuel expl h1
    have hrange : List.range MAX_FIX_ATTEMPTS = [0, 1, 2] := rfl
    have hsession : run_autofix cfg envs pollFuel initialError =
        (.succeeded expl,
         ([.fetch 0, .propose 0 d initialError cfg.activityName] : List Event) ++ evs1) := by
      rw [run_autofix, hrange]
      simp [autofixOver, hs0, hs1, MAX_FIX_ATTEMPTS]
    rw [hsession]
    refine ⟨rfl, ?_, ?_, ?_⟩
    · simp [c1f, isFetchEv]
    · simp [c1u, isUpdateEv]
    · simp [c1t, isTriggerEv]

/-- Witness for C5: the concrete parse-failure-then-success session
succeeds using 2 attempts, one update and one trigger. -/
theorem parse_failure_consumes_attempt_witness :
    (run_autofix cfgW (fun k => match k with | 0 => envParseFail | _ => envSuccess)
      1 "E1").1 = .succeeded "explained" ∧
    countEvents isFetchEv
      ((run_autofix cfgW (fun k => match k with | 0 => envParseFail | _ => envSuccess)
        1 "E1").2) = 2 ∧
    countEvents isUpdateEv
      ((run_autofix cfgW (fun k => match k with | 0 => envParseFail | _ => envSuccess)
        1 "E1").2) = 1 ∧
    countEvents isTriggerEv
      ((run_autofix cfgW (fun k => match k with | 0 => envParseFail | _ => envSuccess)
        1 "E1").2) = 1 :=
  parse_failure_consumes_attempt.2 cfgW
    (fun k => match k with | 0 => envParseFail | _ => envSuccess) 1 "E1" defnW
    "Expecting value" "explained" rfl rfl
    ⟨⟨defnW, rfl⟩, ⟨patchW, rfl, rfl⟩, rfl, ⟨"r1", rfl⟩,
      ⟨0, Nat.zero_lt_one, fun j hj => absurd hj (Nat.not_lt_zero j), "r1", some "", rfl⟩,
      rfl⟩

/-- C6: a session whose attempt-1 proposer response is a valid patch
and whose retriggered run is reported `Succeeded` returns the success
outcome after exactly 1 attempt, with exactly 1 call each to
fetch-definition, update-definition, trigger-run and the monitor. -/
theorem success_path_single_attempt :
    ∀ (cfg : SessionCfg) (envs : Nat → AttemptEnv) (pollFuel : Nat)
      (initialError expl : String),
      succeedsWith (envs 0) expl pollFuel →
      (run_autofix cfg envs pollFuel initialError).1 = .succeeded expl ∧
      countEvents isFetchEv (run_autofix cfg envs pollFuel initialError).2 = 1 ∧
      countEvents isUpdateEv (run_autofix cfg envs pollFuel initialError).2 = 1 ∧
      countEvents isTriggerEv (run_autofix cfg envs pollFuel initialError).2 = 1 ∧
      countEvents isMonitorEnterEv (run_autofix cfg envs pollFuel initialError).2 = 1 := by
  intro cfg envs pollFuel initialError expl h0
  obtain ⟨evs0, hs0, c0f, c0p, c0u, c0t, c0m, c0e, c0a⟩ :=
    attemptStep_of_succeedsWith cfg (envs 0) 0 initialError pollFuel expl h0
  have hrange : List.range MAX_FIX_ATTEMPTS = [0, 1, 2] := rfl
  have hsession : run_autofix cfg envs pollFuel initialError = (.succeeded expl, evs0) := by
    rw [run_autofix, hrange]
    simp [autofixOver, hs0]
  rw [hsession]
  exact ⟨rfl, c0f, c0u, c0t, c0m⟩

/-- Witness for C6: the concrete single-attempt success session. -/
theorem success_path_single_attempt_witness :
    (run_autofix cfgW (fun _ => envSuccess) 1 "E1").1 = .succeeded "explained" ∧
    countEvents isFetchEv (run_autofix cfgW (fun _ => envSuccess) 1 "E1").2 = 1 ∧
    countEvents isUpdateEv (run_autofix cfgW (fun _ => envSuccess) 1 "E1").2 = 1 ∧
    countEvents isTriggerEv (run_autofix cfgW (fun _ => envSuccess) 1 "E1").2 = 1 ∧
    countEvents isMonitorEnterEv (run_autofix cfgW (fun _ => envSuccess) 1 "E1").2 = 1 :=
  success_path_single_attempt cfgW (fun _ => envSuccess) 1 "E1" "explained"
    ⟨⟨defnW, rfl⟩, ⟨patchW, rfl, rfl⟩, rfl, ⟨"r1", rfl⟩,
      ⟨0, Nat.zero_lt_one, fun j hj => absurd hj (Nat.not_lt_zero j), "r1", some "", rfl⟩,
      rfl⟩

/-- C2: whenever the proposer's response on attempt `k` parses to an
object containing the `manual_intervention_required` key, that
iteration performs no update and no trigger (its events are exactly
the fetch and the propose) and the loop breaks; at session level, with
every attempt before `k` ending in a caught failure, the session ends
`manualStop` with the explanation surfaced, exactly `k + 1` attempts
started, no event of any later attempt, and no update or trigger on
attempt `k`. -/
theorem manual_verdict_short_circuits :
    (∀ (cfg : SessionCfg) (env : AttemptEnv) (att : Nat) (cur : String) (pollFuel : Nat)
       (d : PipelineDefinition) (fj : FixJson) (expl : String),
       env.fetchBackend = .ok d → env.parsed = .ok fj →
       fj.manual_intervention_required = some expl →
       attemptStep cfg env att cur pollFuel =
         (.manual expl, [.fetch att, .propose att d cur cfg.activityName])) ∧
    (∀ (cfg : SessionCfg) (envs : Nat → AttemptEnv) (pollFuel : Nat)
       (initialError : String) (k : Nat) (d : PipelineDefinition) (fj : FixJson)
       (expl : String),
       k < MAX_FIX_ATTEMPTS →
       (∀ j, j < k → ∀ cur, ∃ m ne,
         (attemptStep cfg (envs j) j cur pollFuel).1 = .caught m ne) →
       (envs k).fetchBackend = .ok d → (envs k).parsed = .ok fj →
       fj.manual_intervention_required = some expl →
       (run_autofix cfg envs pollFuel initialError).1 = .manualStop expl ∧
       countEvents isFetchEv (run_autofix cfg envs pollFuel initialError).2 = k + 1 ∧
       (∀ ev ∈ (run_autofix cfg envs pollFuel initialError).2, attOf ev ≤ k) ∧
       countEvents (isUpdateAt k) (run_autofix cfg envs pollFuel initialError).2 = 0 ∧
       countEvents (isTriggerAt k) (run_autofix cfg envs pollFuel initialError).2 = 0) := by
  constructor
  · intro cfg env att cur pollFuel d fj expl hf hp hm
    exact attemptStep_manual cfg env att cur pollFuel d fj expl hf hp hm
  · intro cfg envs pollFuel initialError k d fj expl hk hcont hf hp hm
    have hrange : List.range MAX_FIX_ATTEMPTS = [0, 1, 2] := rfl
    have hk3 : k < 3 := by simpa [MAX_FIX_ATTEMPTS] using hk
    clear hk
    interval_cases k
    · have hs0 := attemptStep_manual cfg (envs 0) 0 initialError pollFuel d fj expl hf hp hm
      have hsession : run_autofix cfg envs pollFuel initialError =
          (.manualStop expl,
           ([.fetch 0, .propose 0 d initialError cfg.activityName] : List Event)) := by
        rw [run_autofix, hrange]
        simp [autofixOver, hs0]
      rw [hsession]
      refine ⟨rfl, ?_, ?_, ?_, ?_⟩
      · simp [isFetchEv]
      · intro ev hev
        simp only [List.mem_cons, List.not_mem_nil, or_false] at hev
        rcases hev with rfl | rfl
        · exact Nat.le_refl 0
        · exact Nat.le_refl 0
      · simp [isUpdateAt]
      · simp [isTriggerAt]
    · obtain ⟨m0, ne0, h0⟩ := hcont 0 (by omega) initialError
      have spec0 := attemptStep_events_spec cfg (envs 0) 0 initialError pollFuel
      have hs1 := attemptStep_manual cfg (envs 1) 1 ne0 pollFuel d fj expl hf hp hm
      have hsession : run_autofix cfg envs pollFuel initialError =
          (.manualStop expl,
           (attemptStep cfg (envs 0) 0 initialError pollFuel).2 ++
             [.fetch 1, .propose 1 d ne0 cfg.activityName]) := by
        rw [run_autofix, hrange]
        simp [autofixOver, h0, hs1, MAX_FIX_ATTEMPTS]
      rw [hsession]
      refine ⟨rfl, ?_, ?_, ?_, ?_⟩
      · simp [spec0.1, isFetchEv]
      · intro ev hev
        simp only [List.mem_append, List.mem_cons, List.not_mem_nil, or_false] at hev
        rcases hev with h | rfl | rfl
        · exact (spec0.2 ev h) ▸ (by omega)
        · exact Nat.le_refl 1
        · exact Nat.le_refl 1
      · have hz := countEvents_zero_of_att (p := isUpdateAt 1) (a := 0) (k := 1)
          (fun e he => isUpdateAt_att e he) spec0.2 (by omega)
        simp [hz, isUpdateAt]
      · have hz := countEvents_zero_of_att (p := isTriggerAt 1) (a := 0) (k := 1)
          (fun e he => isTriggerAt_att e he) spec0.2 (by omega)
        simp [hz, isTriggerAt]
    · obtain ⟨m0, ne0, h0⟩ := hcont 0 (by omega) initialError
      obtain ⟨m1, ne1, h1⟩ := hcont 1 (by omega) ne0
      have spec0 := attemptStep_events_spec cfg (envs 0) 0 initialError pollFuel
      have spec1 := attemptStep_events_spec cfg (envs 1) 1 ne0 pollFuel
      have hs2 := attemptStep_manual cfg (envs 2) 2 ne1 pollFuel d fj expl hf hp hm
      have hsession : run_autofix cfg envs pollFuel initialError =
          (.manualStop expl,
           (attemptStep cfg (envs 0) 0 initialError pollFuel).2 ++
             ((attemptStep cfg (envs 1) 1 ne0 pollFuel).2 ++
              [.fetch 2, .propose 2 d ne1 cfg.activityName])) := by
        rw [run_autofix, hrange]
        simp [autofixOver, h0, h1, hs2, MAX_FIX_ATTEMPTS]
      rw [hsession]
      refine ⟨rfl, ?_, ?_, ?_, ?_⟩
      · simp [spec0.1, spec1.1, isFetchEv]
      · intro ev hev
        simp only [List.mem_append, List.mem_cons, List.not_mem_nil, or_false] at hev
        rcases hev with h | h | rfl | rfl
        · exact (spec0.2 ev h) ▸ (by omega)
        · exact (spec1.2 ev h) ▸ (by omega)
        · exact Nat.le_refl 2
        · exact Nat.le_refl 2
      · have hz0 := countEvents_zero_of_att (p := isUpdateAt 2) (a := 0) (k := 2)
          (fun e he => isUpdateAt_att e he) spec0.2 (by omega)
        have hz1 := countEvents_zero_of_att (p := isUpdateAt 2) (a := 1) (k := 2)
          (fun e he => isUpdateAt_att e he) spec1.2 (by omega)
        simp [hz0, hz1, isUpdateAt]
      · have hz0 := countEvents_zero_of_att (p := isTriggerAt 2) (a := 0) (k := 2)
          (fun e he => isTriggerAt_att e he) spec0.2 (by omega)
        have hz1 := countEvents_zero_of_att (p := isTriggerAt 2) (a := 1) (k := 2)
          (fun e he => isTriggerAt_att e he) spec1.2 (by omega)
        simp [hz0, hz1, isTriggerAt]

/-- Witness for C2: a parse failure on attempt 1, then the manual
verdict on attempt 2: the session stops with the explanation after 2
started attempts, with no update or trigger on the manual attempt. -/
theorem manual_verdict_short_circuits_witness :
    (run_autofix cfgW (fun k => match k with | 0 => envParseFail | _ => envManual)
      5 "E1").1 = .manualStop "Check credentials" ∧
    countEvents isFetchEv
      ((run_autofix cfgW (fun k => match k with | 0 => envParseFail | _ => envManual)
        5 "E1").2) = 1 + 1 ∧
    (∀ ev ∈ (run_autofix cfgW (fun k => match k with | 0 => envParseFail | _ => envManual)
        5 "E1").2, attOf ev ≤ 1) ∧
    countEvents (isUpdateAt 1)
      ((run_autofix cfgW (fun k => match k with | 0 => envParseFail | _ => envManual)
        5 "E1").2) = 0 ∧
    countEvents (isTriggerAt 1)
      ((run_autofix cfgW (fun k => match k with | 0 => envParseFail | _ => envManual)
        5 "E1").2) = 0 :=
  manual_verdict_short_circuits.2 cfgW
    (fun k => match k with | 0 => envParseFail | _ => envManual) 5 "E1" 1 defnW manualFix
    "Check credentials" (by decide)
    (by intro j hj cur
        interval_cases j
        exact ⟨"Expecting value", cur, rfl⟩)
    rfl rfl rfl

/-- C7: the monitor sleeps a fixed 10 time units before each status
read, has no internal cap on poll count (if every poll reports a
non-terminal status it never exits, whatever the fuel), and — over
status-record replies — it exits exactly when a poll observes a
terminal status: on exit the elapsed sleep time is 10 per poll, the
last poll observed a terminal status and every earlier one a
non-terminal status; conversely, when the first terminal status
appears at poll `n` (within fuel), the loop exits right there after
`n + 1` polls and `10 * (n + 1)` time units. -/
theorem monitor_fixed_interval_terminal_exit :
    (∀ (poll : Nat → PollReply) (fuel : Nat),
       (∀ j, nonTerminalReply (poll j) = true) →
       monitorRun poll fuel 0 0 = none) ∧
    (∀ (poll : Nat → PollReply) (fuel : Nat) (obs : TerminalObs) (n t : Nat),
       (∀ j, recordReply (poll j) = true) →
       monitorRun poll fuel 0 0 = some (obs, n, t) →
       1 ≤ n ∧ t = 10 * n ∧ terminalReply (poll (n - 1)) = true ∧
       ∀ j, j < n - 1 → nonTerminalReply (poll j) = true) ∧
    (∀ (poll : Nat → PollReply) (n fuel : Nat),
       (∀ j, j < n → nonTerminalReply (poll j) = true) →
       terminalReply (poll n) = true → n < fuel →
       ∃ obs, monitorRun poll fuel 0 0 = some (obs, n + 1, 10 * (n + 1))) := by
  refine ⟨?_, ?_, ?_⟩
  · intro poll fuel h
    exact monitorRun_noTerminal poll h fuel 0 0
  · intro poll fuel obs n t hrec hmon
    obtain ⟨hn, ht, hnt, hterm⟩ := monitorRun_exit poll fuel 0 0 obs n t hrec hmon
    refine ⟨hn, by omega, hterm, ?_⟩
    intro j hj
    exact hnt j (Nat.zero_le j) (by omega)
  · intro poll n fuel hnt hterm hfuel
    rcases hp : poll n with ⟨id, st, msg⟩ | m
    · rw [hp] at hterm
      simp only [terminalReply, terminalStatus, Bool.or_eq_true, beq_iff_eq] at hterm
      rcases hterm with (rfl | rfl) | rfl
      · refine ⟨.succeeded, ?_⟩
        have := monitorRun_succeedsAt poll n fuel 0 0 (by simpa using hnt)
          ⟨id, msg, by simpa using hp⟩ hfuel
        simpa using this
      · refine ⟨.failedOrCancelled (pyOptionStr msg), ?_⟩
        have := monitorRun_failsAt poll n fuel 0 0 id "Failed" msg (by simpa using hnt)
          (by simpa using hp) (Or.inl rfl) hfuel
        simpa using this
      · refine ⟨.failedOrCancelled (pyOptionStr msg), ?_⟩
        have := monitorRun_failsAt poll n fuel 0 0 id "Cancelled" msg (by simpa using hnt)
          (by simpa using hp) (Or.inr rfl) hfuel
        simpa using this
    · rw [hp] at hterm
      simp [terminalReply] at hterm

/-- Witness for C7: a forever-`InProgress` poll stream exhausts fuel 4
without exiting; the immediately-`Succeeded` stream exits after 1 poll
and 10 time units; a `Queued`-then-`Succeeded` stream exits after 2
polls and 20 time units. -/
theorem monitor_fixed_interval_terminal_exit_witness :
    monitorRun inProgressPoll 4 0 0 = none ∧
    (1 ≤ 1 ∧ (10 : Nat) = 10 * 1 ∧ terminalReply (okPoll (1 - 1)) = true ∧
      ∀ j, j < 1 - 1 → nonTerminalReply (okPoll j) = true) ∧
    ∃ obs, monitorRun queuedThenDonePoll 3 0 0 = some (obs, 1 + 1, 10 * (1 + 1)) :=
  ⟨monitor_fixed_interval_terminal_exit.1 inProgressPoll 4 (fun _ => rfl),
   monitor_fixed_interval_terminal_exit.2.1 okPoll 3 .succeeded 1 10 (fun _ => rfl) rfl,
   monitor_fixed_interval_terminal_exit.2.2 queuedThenDonePoll 1 3
     (by intro j hj; interval_cases j; rfl) rfl (by omega)⟩

/-- C3 counterexample: the controller performs no name validation: on a
concrete session whose proposer returns a patch renaming activity
`CopyA` to `CopyB`, the renaming patch is passed to `update_pipeline`
(the update call appears in the trace) and the session ends in success
rather than rejecting the patch as a failure. -/
theorem name_preservation_counterexample :
    defnW.activities.map Activity.name = ["CopyA"] ∧
    patchRenamed.activities.map (fun l => l.map Activity.name) = some ["CopyB"] ∧
    Event.updateCall 0 patchRenamed ∈
      (run_autofix cfgW (fun _ => envRenameSuccess) 5 "E1").2 ∧
    (run_autofix cfgW (fun _ => envRenameSuccess) 5 "E1").1 = .succeeded "explained" := by
  refine ⟨rfl, rfl, ?_, rfl⟩
  decide

/-- C3 amended: the auto-fix loop validates neither the pipeline name
nor the activity names of a patched definition before applying it (a
renaming patch is applied, see the counterexample); the pipeline name
alone is nonetheless always retained, because `update_pipeline` writes
under the caller-supplied session pipeline name and ignores any name
carried by the patch. -/
theorem apply_uses_session_pipeline_name :
    ∀ (pn : String) (fj : FixJson) (b : Except String Unit) (w : WrittenPipeline),
      update_pipeline pn fj b = .ok w → w.pipeline_name = pn := by
  intro pn fj b w h
  cases b with
  | error e => simp [update_pipeline] at h
  | ok u =>
    simp only [update_pipeline, Except.ok.injEq] at h
    rw [← h]

/-- Witness for the amended C3: applying the renaming patch writes
under the session pipeline name `pl1`. -/
theorem apply_uses_session_pipeline_name_witness :
    writtenRenamed.pipeline_name = "pl1" :=
  apply_uses_session_pipeline_name "pl1" patchRenamed (.ok ()) writtenRenamed rfl

/-- C8 counterexample: a Gateway error during a status poll inside
monitoring is NOT folded into the attempt-failure path: on a concrete
session whose first poll returns the `{"error": ...}` dict,
`run_status['status']` raises an uncaught `KeyError` and the session
ends as an unhandled fault (`crashed`) on its first attempt, not as
`exhausted` after the attempt budget. -/
theorem poll_gateway_error_unhandled :
    (run_autofix cfgW (fun _ => envPollError) 5 "E1").1 = .crashed ∧
    countEvents isFetchEv (run_autofix cfgW (fun _ => envPollError) 5 "E1").2 = 1 :=
  ⟨rfl, rfl⟩

/-- C8 amended: gateway errors at the definition fetch, the update and
the trigger, parse failures of the proposer text, and retriggered runs
ending `Failed`/`Cancelled` are all folded into the caught
attempt-failure path (with the run-failure case recording the new
error); but a gateway error during a status poll inside monitoring
raises an uncaught `KeyError` that ends the session as an unhandled
fault. -/
theorem error_folding_amended :
    (∀ (cfg : SessionCfg) (env : AttemptEnv) (att : Nat) (cur : String) (pollFuel : Nat)
       (m : String), env.fetchBackend = .error m →
       (attemptStep cfg env att cur pollFuel).1 =
         .caught ("Failed to get pipeline definition: " ++
           ("Error getting pipeline definition: " ++ m)) cur) ∧
    (∀ (cfg : SessionCfg) (env : AttemptEnv) (att : Nat) (cur : String) (pollFuel : Nat)
       (d : PipelineDefinition) (m : String),
       env.fetchBackend = .ok d → env.parsed = .error m →
       (attemptStep cfg env att cur pollFuel).1 = .caught m cur) ∧
    (∀ (cfg : SessionCfg) (env : AttemptEnv) (att : Nat) (cur : String) (pollFuel : Nat)
       (d : PipelineDefinition) (fj : FixJson) (m : String),
       env.fetchBackend = .ok d → env.parsed = .ok fj →
       fj.manual_intervention_required = none → env.updateBackend = .error m →
       (attemptStep cfg env att cur pollFuel).1 =
         .caught ("Failed to update pipeline: " ++ ("Error updating pipeline: " ++ m)) cur) ∧
    (∀ (cfg : SessionCfg) (env : AttemptEnv) (att : Nat) (cur : String) (pollFuel : Nat)
       (d : PipelineDefinition) (fj : FixJson) (m : String),
       env.fetchBackend = .ok d → env.parsed = .ok fj →
       fj.manual_intervention_required = none → env.updateBackend = .ok () →
       env.triggerBackend = .error m →
       (attemptStep cfg env att cur pollFuel).1 =
         .caught ("Failed to retrigger pipeline: " ++
           ("Error creating pipeline run: " ++ m)) cur) ∧
    (∀ (cfg : SessionCfg) (env : AttemptEnv) (att : Nat) (cur : String) (pollFuel : Nat)
       (e : String), failsWith env e pollFuel →
       (attemptStep cfg env att cur pollFuel).1 =
         .caught ("New run failed. Error: " ++ e) e) ∧
    (∀ (cfg : SessionCfg) (env : AttemptEnv) (att : Nat) (cur : String) (pollFuel : Nat)
       (d : PipelineDefinition) (fj : FixJson) (r : String) (n : Nat) (m : String),
       env.fetchBackend = .ok d → env.parsed = .ok fj →
       fj.manual_intervention_required = none → env.updateBackend = .ok () →
       env.triggerBackend = .ok r →
       (∀ j, j < n → nonTerminalReply (env.poll j) = true) →
       env.poll n = .errorDict m → n < pollFuel →
       (attemptStep cfg env att cur pollFuel).1 = .uncaught) := by
  refine ⟨?_, ?_, ?_, ?_, ?_, ?_⟩
  · intro cfg env att cur pollFuel m hf
    rw [attemptStep_fetchError cfg env att cur pollFuel m hf]
  · intro cfg env att cur pollFuel d m hf hp
    rw [attemptStep_parseError cfg env att cur pollFuel d m hf hp]
  · intro cfg env att cur pollFuel d fj m hf hp hm hu
    rw [attemptStep_updateError cfg env att cur pollFuel d fj m hf hp hm hu]
  · intro cfg env att cur pollFuel d fj m hf hp hm hu ht
    rw [attemptStep_triggerError cfg env att cur pollFuel d fj m hf hp hm hu ht]
  · intro cfg env att cur pollFuel e h
    obtain ⟨evs, heq, -⟩ := attemptStep_of_failsWith cfg env att cur pollFuel e h
    rw [heq]
  · intro cfg env att cur pollFuel d fj r n m hf hp hm hu ht hnt hpoll hfuel
    exact attemptStep_pollErrorDict cfg env att cur pollFuel d fj r n m
      hf hp hm hu ht hnt hpoll hfuel

/-- Witness for the amended C8: each failure kind at a concrete
environment, ending in the caught path, and the poll gateway error
ending uncaught. -/
theorem error_folding_amended_witness :
    (attemptStep cfgW envFetchErr 0 "E1" 3).1 =
      .caught ("Failed to get pipeline definition: " ++
        ("Error getting pipeline definition: " ++ "boom")) "E1" ∧
    (attemptStep cfgW envParseFail 0 "E1" 3).1 = .caught "Expecting value" "E1" ∧
    (attemptStep cfgW envUpdateErr 0 "E1" 3).1 =
      .caught ("Failed to update pipeline: " ++ ("Error updating pipeline: " ++ "quota"))
        "E1" ∧
    (attemptStep cfgW envTriggerErr 0 "E1" 3).1 =
      .caught ("Failed to retrigger pipeline: " ++
        ("Error creating pipeline run: " ++ "throttled")) "E1" ∧
    (attemptStep cfgW (envFail "EF") 0 "E1" 3).1 =
      .caught ("New run failed. Error: " ++ "EF") "EF" ∧
    (attemptStep cfgW envPollError 0 "E1" 3).1 = .uncaught :=
  ⟨error_folding_amended.1 cfgW envFetchErr 0 "E1" 3 "boom" rfl,
   error_folding_amended.2.1 cfgW envParseFail 0 "E1" 3 defnW "Expecting value" rfl rfl,
   error_folding_amended.2.2.1 cfgW envUpdateErr 0 "E1" 3 defnW patchW "quota"
     rfl rfl rfl rfl,
   error_folding_amended.2.2.2.1 cfgW envTriggerErr 0 "E1" 3 defnW patchW "throttled"
     rfl rfl rfl rfl rfl,
   error_folding_amended.2.2.2.2.1 cfgW (envFail "EF") 0 "E1" 3 "EF"
     ⟨⟨defnW, rfl⟩, ⟨patchW, rfl, rfl⟩, rfl, ⟨"r1", rfl⟩, 0, by omega,
       fun j hj => absurd hj (Nat.not_lt_zero j), "r1", "Failed", Or.inl rfl, rfl⟩,
   error_folding_amended.2.2.2.2.2 cfgW envPollError 0 "E1" 3 defnW patchW "r1" 0
     "Error getting pipeline run status: timeout" rfl rfl rfl rfl rfl
     (fun j hj => absurd hj (Nat.not_lt_zero j)) rfl (by omega)⟩

/-- C9 counterexample: on a concrete session whose retriggered run is
reported `Succeeded` by the first poll but whose explanation call
raises an exception outside the caught tuple, the session does NOT end
in the success outcome: `get_error_analysis` has no error handling, the
exception propagates and the session crashes. -/
theorem analysis_failure_crashes_succeeded_run :
    envAnalysisDown.poll 0 = .record "r1" "Succeeded" (some "") ∧
    (run_autofix cfgW (fun _ => envAnalysisDown) 5 "E1").1 = .crashed :=
  ⟨rfl, rfl⟩

/-- C9 amended: a failure of the explanation call after a `Succeeded`
retriggered run is not contained: the exception propagates out of the
success branch, so the attempt ends in the caught path (consuming an
attempt and retrying despite the success) when the exception class is
in the caught tuple, and as an unhandled fault otherwise — never as an
explanation-unavailable success. -/
theorem analysis_failure_not_contained :
    ∀ (cfg : SessionCfg) (env : AttemptEnv) (att : Nat) (cur : String) (pollFuel : Nat)
      (d : PipelineDefinition) (fj : FixJson) (r : String) (n : Nat) (id : String)
      (msg : Option String) (k : ExcKind) (m : String),
      env.fetchBackend = .ok d → env.parsed = .ok fj →
      fj.manual_intervention_required = none →
      env.updateBackend = .ok () → env.triggerBackend = .ok r →
      (∀ j, j < n → nonTerminalReply (env.poll j) = true) →
      env.poll n = .record id "Succeeded" msg →
      env.analysis = .error (k, m) → n < pollFuel →
      (attemptStep cfg env att cur pollFuel).1 =
        (if isCaughtExc k then .caught m cur else .uncaught) := by
  intro cfg env att cur pollFuel d fj r n id msg k m hf hp hm hu ht hnt hpoll ha hfuel
  rw [attemptStep_analysisExc cfg env att cur pollFuel d fj r n id msg k m
    hf hp hm hu ht hnt hpoll ha hfuel]

/-- Witness for the amended C9: the concrete environment whose
explanation call raises an uncaught-class exception makes the attempt
end uncaught. -/
theorem analysis_failure_not_contained_witness :
    (attemptStep cfgW envAnalysisDown 0 "E1" 3).1 =
      (if isCaughtExc .otherError then
        .caught "completion service unavailable" "E1" else .uncaught) :=
  analysis_failure_not_contained cfgW envAnalysisDown 0 "E1" 3 defnW patchW "r1" 0 "r1"
    (some "") .otherError "completion service unavailable" rfl rfl rfl rfl rfl
    (fun j hj => absurd hj (Nat.not_lt_zero j)) rfl rfl (by omega)

/-- C10: `update_pipeline` constructs the written definition from only
the patch's `activities`, `parameters`, `variables` and `annotations`
fields and writes it under the caller-supplied pipeline name: whatever
`name` field or extra top-level keys the patch carries, the written
pipeline's name equals the session's target name, and changing the
patch's `name` or extra keys changes nothing about what is written. -/
theorem update_pipeline_frame_effect :
    ∀ (pn : String) (fj : FixJson) (b : Except String Unit) (w : WrittenPipeline),
      update_pipeline pn fj b = .ok w →
      (w.pipeline_name = pn ∧
        w.resource = ⟨fj.activities, fj.parameters, fj.«variables», fj.annotations⟩) ∧
      ∀ (nm : Option String) (ko : List String),
        update_pipeline pn { fj with name := nm, otherKeys := ko } b = .ok w := by
  intro pn fj b w h
  cases b with
  | error e => simp [update_pipeline] at h
  | ok u =>
    simp only [update_pipeline, Except.ok.injEq] at h
    rw [← h]
    exact ⟨⟨rfl, rfl⟩, fun nm ko => rfl⟩

/-- Witness for C10: the concrete patch is written under `pl1` with the
resource built from its four fields, independently of its `name` field
and extra keys. -/
theorem update_pipeline_frame_effect_witness :
    (writtenW.pipeline_name = "pl1" ∧
      writtenW.resource =
        ⟨patchW.activities, patchW.parameters, patchW.«variables», patchW.annotations⟩) ∧
    ∀ (nm : Option String) (ko : List String),
      update_pipeline "pl1" { patchW with name := nm, otherKeys := ko } (.ok ()) =
        .ok writtenW :=
  update_pipeline_frame_effect "pl1" patchW (.ok ()) writtenW rfl

end ADFAutoFix
